import Mathlib

/-!
Shallow embedding of `src/tornado/tcpserver.py` (class `TCPServer`).

The server state carries the fields set up in `TCPServer.__init__`
(lines 96-125): the optional `ssl_options` dictionary, the registry
`_sockets` (a Python dict from file descriptor to socket object,
modelled as an insertion-ordered association list), the `_pending_sockets`
list, the `_started` flag, and the two buffer-size options.

Side effects on the external collaborators (the `IOLoop` reactor and the
sockets themselves) are modelled as an explicit trace of `Event`s emitted
by each operation: `add_accept_handler(sock, ...)` becomes
`Event.addAcceptHandler`, `io_loop.remove_handler(fd)` becomes
`Event.removeHandler`, and `sock.close()` / `connection.close()` becomes
`Event.closeSocket`.

`_handle_connection` (lines 246-290) is embedded as a function of the
server state and a connection environment describing how the external
calls behave for this particular accepted connection: the outcome of
`ssl_wrap_socket`, whether the stream constructor raises, and whether
`handle_stream` raises (the default `handle_stream`, lines 239-241,
always raises `NotImplementedError`).
-/

namespace TCPServerModel

/-- A socket object: its file descriptor (`sock.fileno()`) plus an object
identity `sid` so that two distinct socket objects may share a descriptor. -/
structure Socket where
  fileno : Nat
  sid : Nat
deriving DecidableEq, Repr

/-- Observable side effects on the reactor and on sockets. -/
inductive Event where
  | addAcceptHandler (fd : Nat)
  | removeHandler (fd : Nat)
  | closeSocket (sock : Socket)
deriving DecidableEq, Repr

/-- The `ssl_options` dictionary: the code inspects only the `certfile`
and `keyfile` keys (lines 114-125). -/
structure SSLDict where
  certfile : Option String
  keyfile : Option String
deriving DecidableEq, Repr

/-- The per-instance state of a `TCPServer`. -/
structure Server where
  ssl_options : Option SSLDict
  /-- `self._sockets`: dict fd -> socket object (line 102). -/
  _sockets : List (Nat × Socket)
  /-- `self._pending_sockets` (line 104). -/
  _pending_sockets : List Socket
  /-- `self._started` (line 105). -/
  _started : Bool
  max_buffer_size : Option Nat
  read_chunk_size : Option Nat
deriving DecidableEq, Repr

/-- Python dict assignment `d[k] = v` on an insertion-ordered association
list: replace the entry in place when the key is present, append otherwise. -/
def dict_set : List (Nat × Socket) → Nat → Socket → List (Nat × Socket)
  | [], k, v => [(k, v)]
  | p :: rest, k, v => if p.1 = k then (k, v) :: rest else p :: dict_set rest k v

/-- Python dict lookup `d.get(k)`. -/
def dict_get : List (Nat × Socket) → Nat → Option Socket
  | [], _ => none
  | p :: rest, k => if p.1 = k then some p.2 else dict_get rest k

/-- Errors raised by `TCPServer.__init__` while validating `ssl_options`
(lines 114-125). -/
inductive InitError where
  | keyErrorMissingCertfile
  | valueErrorCertfile (path : String)
  | valueErrorKeyfile (path : String)
deriving DecidableEq, Repr

/-- `os.path.exists`, over an explicit model of the filesystem as the list
of existing paths. -/
def path_exists (fs : List String) (p : String) : Bool := fs.contains p

/-- `TCPServer.__init__` (lines 96-125).  Sets up the empty registry and
pending list, then eagerly validates a dict-valued `ssl_options`: raises
`KeyError` when `certfile` is absent, `ValueError` when the certfile path
does not exist, and `ValueError` when a keyfile is given whose path does
not exist.  Line 107 assigns the literal `None` to
`self.read_chunk_size`, so the constructor argument is discarded.
No socket is created or touched here: the result carries no `Event`s. -/
def TCPServer_init (fs : List String) (ssl_options : Option SSLDict)
    (max_buffer_size read_chunk_size : Option Nat) : Except InitError Server :=
  let srv : Server :=
    { ssl_options := ssl_options
      _sockets := []
      _pending_sockets := []
      _started := false
      max_buffer_size := max_buffer_size
      read_chunk_size := none }
  match ssl_options with
  | none => .ok srv
  | some opts =>
      match opts.certfile with
      | none => .error .keyErrorMissingCertfile
      | some cf =>
          if ¬ path_exists fs cf then .error (.valueErrorCertfile cf)
          else
            match opts.keyfile with
            | none => .ok srv
            | some kf =>
                if ¬ path_exists fs kf then .error (.valueErrorKeyfile kf)
                else .ok srv

/-- `TCPServer.add_sockets` (lines 144-163): for each socket, store it in
`self._sockets` keyed by `sock.fileno()` and call `add_accept_handler`
for it — unconditionally, whether or not the descriptor was already
tracked. -/
def add_sockets (s : Server) : List Socket → Server × List Event
  | [] => (s, [])
  | sock :: rest =>
      let r := add_sockets { s with _sockets := dict_set s._sockets sock.fileno sock } rest
      (r.1, Event.addAcceptHandler sock.fileno :: r.2)

/-- `TCPServer.bind` (lines 170-196).  The sockets produced by
`bind_sockets` for the requested port are passed in as `new_sockets`:
if the server has started they are registered immediately via
`add_sockets`, otherwise they are appended to `self._pending_sockets`. -/
def bind (s : Server) (new_sockets : List Socket) : Server × List Event :=
  if s._started then add_sockets s new_sockets
  else ({ s with _pending_sockets := s._pending_sockets ++ new_sockets }, [])

/-- `TCPServer.start` (lines 199-225).  `assert not self._started` is
modelled as returning `none`.  `process.fork_processes` (taken when
`num_processes != 1`) does not change this instance's per-process state,
so it has no effect on the embedded state.  Then the pending sockets are
drained and handed to `add_sockets`. -/
def start (s : Server) (num_processes : Int) : Option (Server × List Event) :=
  if s._started then none
  else
    let s1 := { s with _started := true }
    let sockets := s1._pending_sockets
    let s2 := { s1 with _pending_sockets := [] }
    some (add_sockets s2 sockets)

/-- The event trace of the loop in `TCPServer.stop` (lines 234-236):
`remove_handler(fd)` then `sock.close()` for each registry entry, in
order.  The loop body mutates nothing on `self`. -/
def stop_events : List (Nat × Socket) → List Event
  | [] => []
  | p :: rest => Event.removeHandler p.1 :: Event.closeSocket p.2 :: stop_events rest

/-- `TCPServer.stop` (lines 228-236).  Note the method iterates over
`self._sockets` without ever clearing or modifying it. -/
def stop (s : Server) : Server × List Event :=
  (s, stop_events s._sockets)

/-- The outcome of `ssl_wrap_socket` for one accepted connection:
success, an `ssl.SSLError` whose `args[0]` is `code`, or a
`socket.error` whose errno is `errnoValue`. -/
inductive WrapAttempt where
  | ok
  | sslError (code : Nat)
  | socketError (errnoValue : Nat)
deriving DecidableEq, Repr

/-- How the external calls made by `_handle_connection` behave for one
accepted connection: the `ssl_wrap_socket` outcome (relevant only when
`ssl_options` is set), whether the `IOStream`/`SSLIOStream` constructor
raises, and whether `handle_stream` raises.  The default
`handle_stream` (lines 239-241) raises `NotImplementedError`, i.e.
`handler_raises = true`. -/
structure ConnEnv where
  wrap : WrapAttempt
  stream_ctor_raises : Bool
  handler_raises : Bool
deriving DecidableEq, Repr

/-- `ssl.SSL_ERROR_EOF` (CPython value 8). -/
def SSL_ERROR_EOF : Nat := 8

/-- `errno.ECONNABORTED` (Linux value 103). -/
def ECONNABORTED : Nat := 103

/-- `errno.EINVAL` (value 22). -/
def EINVAL : Nat := 22

/-- The arguments with which the stream is constructed at lines 279-286:
which class is used and the two forwarded size options. -/
structure StreamArgs where
  is_ssl : Bool
  max_buffer_size : Option Nat
  read_chunk_size : Option Nat
deriving DecidableEq, Repr

/-- How one call to `_handle_connection` terminates. -/
inductive ConnOutcome where
  /-- `return connection.close()` in one of the benign except-branches. -/
  | closedBenign
  /-- an exception propagated out of `_handle_connection` (the bare
  `raise` at line 261 or 276). -/
  | raised
  /-- the `except Exception` clause at line 289 caught the exception and
  logged it. -/
  | errorLogged
  /-- `handle_stream` returned normally. -/
  | done
deriving DecidableEq, Repr

/-- Everything observable about one call to `_handle_connection`. -/
structure ConnResult where
  outcome : ConnOutcome
  handler_invoked : Bool
  connection_closed : Bool
  stream_built : Option StreamArgs
deriving DecidableEq, Repr

/-- The `try` block at lines 277-290: construct the stream (SSL or plain,
forwarding `self.max_buffer_size` and `self.read_chunk_size`), call
`self.handle_stream(stream, address)`, and catch any `Exception` from
either step, logging it. -/
def dispatch_phase (s : Server) (env : ConnEnv) : ConnResult :=
  if env.stream_ctor_raises then
    { outcome := .errorLogged, handler_invoked := false,
      connection_closed := false, stream_built := none }
  else
    let args : StreamArgs :=
      { is_ssl := s.ssl_options.isSome
        max_buffer_size := s.max_buffer_size
        read_chunk_size := s.read_chunk_size }
    if env.handler_raises then
      { outcome := .errorLogged, handler_invoked := true,
        connection_closed := false, stream_built := some args }
    else
      { outcome := .done, handler_invoked := true,
        connection_closed := false, stream_built := some args }

/-- `TCPServer._handle_connection` (lines 246-290).  With `ssl_options`
set, `ssl_wrap_socket` runs first, outside the later `try`: an
`ssl.SSLError` with `args[0] == ssl.SSL_ERROR_EOF` or a `socket.error`
with errno in `(ECONNABORTED, EINVAL)` leads to
`return connection.close()`; any other wrap failure re-raises out of the
method.  Only after a successful wrap (or with no TLS configured) does
control enter the `try` block embedded as `dispatch_phase`. -/
def handle_connection (s : Server) (env : ConnEnv) : ConnResult :=
  match s.ssl_options with
  | some _ =>
      match env.wrap with
      | .ok => dispatch_phase s env
      | .sslError code =>
          if code = SSL_ERROR_EOF then
            { outcome := .closedBenign, handler_invoked := false,
              connection_closed := true, stream_built := none }
          else
            { outcome := .raised, handler_invoked := false,
              connection_closed := false, stream_built := none }
      | .socketError e =>
          if e = ECONNABORTED ∨ e = EINVAL then
            { outcome := .closedBenign, handler_invoked := false,
              connection_closed := true, stream_built := none }
          else
            { outcome := .raised, handler_invoked := false,
              connection_closed := false, stream_built := none }
  | none => dispatch_phase s env

/-- `socks.foldl` form of the registry updates performed by
`add_sockets`. -/
def add_all (d : List (Nat × Socket)) (socks : List Socket) : List (Nat × Socket) :=
  socks.foldl (fun acc sock => dict_set acc sock.fileno sock) d

/- Concrete instances used by witnesses and counterexamples. -/

def sock3 : Socket := { fileno := 3, sid := 0 }

def sock5a : Socket := { fileno := 5, sid := 0 }

def sock5b : Socket := { fileno := 5, sid := 1 }

def sock7 : Socket := { fileno := 7, sid := 2 }

/-- A freshly constructed server with no options. -/
def baseServer : Server :=
  { ssl_options := none
    _sockets := []
    _pending_sockets := []
    _started := false
    max_buffer_size := none
    read_chunk_size := none }

def sslOpts : SSLDict := { certfile := some "cert.pem", keyfile := none }

/-- A TLS-configured server. -/
def sslServer : Server := { baseServer with ssl_options := some sslOpts }

/-- Environment of a connection on which every external call succeeds. -/
def okEnv : ConnEnv :=
  { wrap := .ok, stream_ctor_raises := false, handler_raises := false }

/-- Environment of a connection whose TLS setup fails with
`ssl.SSLError` whose code is `SSL_ERROR_SSL` (1), not `SSL_ERROR_EOF`. -/
def unexpectedEnv : ConnEnv :=
  { wrap := .sslError 1, stream_ctor_raises := false, handler_raises := false }

/-- Environment of a connection whose TLS setup hits a protocol-level
unexpected EOF. -/
def eofEnv : ConnEnv :=
  { wrap := .sslError SSL_ERROR_EOF, stream_ctor_raises := false,
    handler_raises := false }

/-- Environment of a connection whose handler raises (as the default
`handle_stream` does, with `NotImplementedError`). -/
def handlerRaisesEnv : ConnEnv :=
  { wrap := .ok, stream_ctor_raises := false, handler_raises := true }

/-- A started server tracking `sock3` under descriptor 3, with `sock7`
still pending (bound after start would be impossible; this state arises
from `add_socket` after `start` plus a later un-started `bind` being
impossible — the pending entry here simply exercises the frame claims). -/
def trackedServer : Server :=
  { baseServer with _sockets := [(3, sock3)], _pending_sockets := [sock7],
                    _started := true }

/-- A started server already tracking descriptor 5 (as `sock5a`). -/
def fd5Server : Server :=
  { baseServer with _sockets := [(5, sock5a)], _started := true }

/-- A not-yet-started server with two pending sockets. -/
def pendingServer : Server :=
  { baseServer with _pending_sockets := [sock3, sock7] }

/-- A started server with empty registry. -/
def startedServer : Server := { baseServer with _started := true }

/- Association-list lemmas for the registry dict. -/

theorem dict_get_set_self (d : List (Nat × Socket)) (k : Nat) (v : Socket) :
    dict_get (dict_set d k v) k = some v := by
  induction d with
  | nil => simp [dict_set, dict_get]
  | cons p rest ih =>
      by_cases hp : p.1 = k
      · simp [dict_set, hp, dict_get]
      · simp [dict_set, hp, dict_get, ih]

theorem dict_get_set_other (d : List (Nat × Socket)) (k k' : Nat) (v : Socket)
    (h : k' ≠ k) : dict_get (dict_set d k v) k' = dict_get d k' := by
  induction d with
  | nil => simp [dict_set, dict_get, Ne.symm h]
  | cons p rest ih =>
      by_cases hp : p.1 = k
      · have hpk' : ¬ p.1 = k' := by rw [hp]; exact Ne.symm h
        simp [dict_set, hp, dict_get, Ne.symm h, hpk']
      · simp [dict_set, hp, dict_get, ih]

/- Structure of `add_sockets`. -/

theorem add_sockets_fst (socks : List Socket) (s : Server) :
    (add_sockets s socks).1 = { s with _sockets := add_all s._sockets socks } := by
  induction socks generalizing s with
  | nil => simp [add_sockets, add_all]
  | cons sock rest ih => simp [add_sockets, add_all, ih, List.foldl_cons]

theorem add_sockets_snd (socks : List Socket) (s : Server) :
    (add_sockets s socks).2 =
      socks.map (fun sock => Event.addAcceptHandler sock.fileno) := by
  induction socks generalizing s with
  | nil => simp [add_sockets]
  | cons sock rest ih => simp [add_sockets, ih]

theorem add_all_get_of_not_mem (socks : List Socket) (d : List (Nat × Socket))
    (fd : Nat) (h : fd ∉ socks.map Socket.fileno) :
    dict_get (add_all d socks) fd = dict_get d fd := by
  induction socks generalizing d with
  | nil => simp [add_all]
  | cons sock rest ih =>
      simp only [List.map_cons, List.mem_cons, not_or] at h
      have step : add_all d (sock :: rest) =
          add_all (dict_set d sock.fileno sock) rest := rfl
      rw [step, ih _ h.2, dict_get_set_other _ _ _ _ h.1]

theorem add_all_get_mem (socks : List Socket) (d : List (Nat × Socket))
    (sock : Socket) (hmem : sock ∈ socks)
    (hnd : (socks.map Socket.fileno).Nodup) :
    dict_get (add_all d socks) sock.fileno = some sock := by
  induction socks generalizing d with
  | nil => cases hmem
  | cons hd rest ih =>
      rw [List.map_cons, List.nodup_cons] at hnd
      have step : add_all d (hd :: rest) =
          add_all (dict_set d hd.fileno hd) rest := rfl
      rcases List.mem_cons.mp hmem with heq | hrest
      · subst heq
        rw [step, add_all_get_of_not_mem _ _ _ hnd.1, dict_get_set_self]
      · rw [step]
        exact ih (dict_set d hd.fileno hd) hrest hnd.2

theorem count_addAccept (socks : List Socket) (sock : Socket)
    (hmem : sock ∈ socks) (hnd : (socks.map Socket.fileno).Nodup) :
    (socks.map (fun k => Event.addAcceptHandler k.fileno)).count
      (Event.addAcceptHandler sock.fileno) = 1 := by
  have hmap : socks.map (fun k => Event.addAcceptHandler k.fileno) =
      (socks.map Socket.fileno).map Event.addAcceptHandler := by
    rw [List.map_map]; rfl
  have hinj : Function.Injective Event.addAcceptHandler := by
    intro a b hab
    cases hab
    rfl
  rw [hmap, List.count_map_of_injective _ _ hinj]
  exact List.count_eq_one_of_mem hnd (List.mem_map_of_mem _ hmem)

/- Structure of `stop`. -/

theorem stop_events_cover (d : List (Nat × Socket)) (p : Nat × Socket)
    (h : p ∈ d) :
    Event.removeHandler p.1 ∈ stop_events d ∧
    Event.closeSocket p.2 ∈ stop_events d := by
  induction d with
  | nil => cases h
  | cons q rest ih =>
      rcases List.mem_cons.mp h with heq | hrest
      · subst heq
        exact ⟨List.mem_cons_self _ _,
               List.mem_cons_of_mem _ (List.mem_cons_self _ _)⟩
      · have := ih hrest
        exact ⟨List.mem_cons_of_mem _ (List.mem_cons_of_mem _ this.1),
               List.mem_cons_of_mem _ (List.mem_cons_of_mem _ this.2)⟩

theorem mem_stop_events (d : List (Nat × Socket)) (e : Event)
    (h : e ∈ stop_events d) :
    ∃ p, p ∈ d ∧ (e = Event.removeHandler p.1 ∨ e = Event.closeSocket p.2) := by
  induction d with
  | nil => cases h
  | cons q rest ih =>
      rcases List.mem_cons.mp h with heq | h'
      · exact ⟨q, List.mem_cons_self _ _, Or.inl heq⟩
      · rcases List.mem_cons.mp h' with heq | h''
        · exact ⟨q, List.mem_cons_self _ _, Or.inr heq⟩
        · obtain ⟨p, hp, he⟩ := ih h''
          exact ⟨p, List.mem_cons_of_mem _ hp, he⟩

/-- C3: the claim says the read chunk size value supplied at construction
is passed unchanged to each constructed stream.  The code contradicts it:
`__init__` assigns `self.read_chunk_size = None` (line 107), discarding
the argument, so a server constructed with read chunk size 42 passes
`None` to the stream constructor of every accepted connection. -/
theorem C3_read_chunk_size_dropped :
    TCPServer_init [] none none (some 42) = Except.ok baseServer ∧
    baseServer.read_chunk_size = none ∧
    (handle_connection baseServer okEnv).stream_built =
      some { is_ssl := false, max_buffer_size := none, read_chunk_size := none } :=
  ⟨rfl, rfl, rfl⟩

/-- C4: on a TLS-configured server, a setup failure that is an
`ssl.SSLError` with code `SSL_ERROR_EOF`, or a `socket.error` with errno
`ECONNABORTED` or `EINVAL`, makes `_handle_connection` close the
connection and return: the handler is never invoked and nothing is
raised out of the accept callback. -/
theorem C4_benign_close (s : Server) (env : ConnEnv)
    (hssl : s.ssl_options.isSome = true)
    (hben : env.wrap = WrapAttempt.sslError SSL_ERROR_EOF ∨
            ∃ e, env.wrap = WrapAttempt.socketError e ∧
                 (e = ECONNABORTED ∨ e = EINVAL)) :
    handle_connection s env =
      { outcome := ConnOutcome.closedBenign, handler_invoked := false,
        connection_closed := true, stream_built := none } := by
  obtain ⟨opts, hopts⟩ := Option.isSome_iff_exists.mp hssl
  rcases hben with hw | ⟨e, hw, he⟩
  · simp [handle_connection, hopts, hw]
  · rcases he with he | he <;> simp [handle_connection, hopts, hw, he]

/-- Witness for C4 at a concrete TLS server and a peer that triggers an
unexpected-EOF during setup. -/
theorem C4_witness :
    sslServer.ssl_options.isSome = true ∧
    eofEnv.wrap = WrapAttempt.sslError SSL_ERROR_EOF ∧
    handle_connection sslServer eofEnv =
      { outcome := ConnOutcome.closedBenign, handler_invoked := false,
        connection_closed := true, stream_built := none } :=
  ⟨rfl, rfl, C4_benign_close sslServer eofEnv rfl (Or.inl rfl)⟩

/-- C5: once TLS negotiation has passed (or no TLS is configured), any
exception raised while constructing the stream or while `handle_stream`
runs — the default `handle_stream` raises `NotImplementedError` — is
caught by the `except Exception` clause at line 289, logged, and
suppressed: the call ends in `errorLogged`, never in `raised`. -/
theorem C5_error_boundary (s : Server) (env : ConnEnv)
    (hpass : s.ssl_options = none ∨ env.wrap = WrapAttempt.ok)
    (hfail : env.stream_ctor_raises = true ∨ env.handler_raises = true) :
    (handle_connection s env).outcome = ConnOutcome.errorLogged ∧
    (handle_connection s env).outcome ≠ ConnOutcome.raised := by
  have hdisp : handle_connection s env = dispatch_phase s env := by
    rcases hpass with h0 | h0
    · simp [handle_connection, h0]
    · cases hs : s.ssl_options with
      | none => simp [handle_connection, hs]
      | some opts => simp [handle_connection, hs, h0]
  rw [hdisp]
  have hout : (dispatch_phase s env).outcome = ConnOutcome.errorLogged := by
    rcases hfail with hf | hf
    · simp [dispatch_phase, hf]
    · by_cases hc : env.stream_ctor_raises = true
      · simp [dispatch_phase, hc]
      · simp [dispatch_phase, hc, hf]
  exact ⟨hout, by rw [hout]; intro h; cases h⟩

/-- Witness for C5: a plain server whose handler raises (the default
`handle_stream`); the error is logged and suppressed. -/
theorem C5_witness :
    (baseServer.ssl_options = none ∨ handlerRaisesEnv.wrap = WrapAttempt.ok) ∧
    (handlerRaisesEnv.stream_ctor_raises = true ∨
      handlerRaisesEnv.handler_raises = true) ∧
    (handle_connection baseServer handlerRaisesEnv).outcome =
      ConnOutcome.errorLogged ∧
    (handle_connection baseServer handlerRaisesEnv).outcome ≠
      ConnOutcome.raised :=
  ⟨Or.inl rfl, Or.inr rfl,
   C5_error_boundary baseServer handlerRaisesEnv (Or.inl rfl) (Or.inr rfl)⟩

/-- C2 counterexample: the claim says a non-benign TLS setup error is
caught by the dispatcher's error boundary and logged.  On a TLS server
with a setup failure `ssl.SSLError` of code 1 (`SSL_ERROR_SSL`), the
call ends in `raised` — the bare `raise` at line 261 runs before the
`try` block at line 277, so the error escapes `_handle_connection` and
is not logged by its boundary. -/
theorem C2_escape_cex :
    (handle_connection sslServer unexpectedEnv).outcome = ConnOutcome.raised ∧
    (handle_connection sslServer unexpectedEnv).outcome ≠
      ConnOutcome.errorLogged := by
  constructor
  · rfl
  · intro h; cases h

/-- C2 amended: on a TLS-configured server, a setup failure that is not
benign (an `ssl.SSLError` with a code other than `SSL_ERROR_EOF`, or a
`socket.error` with errno outside `{ECONNABORTED, EINVAL}`) propagates
out of the accept callback: the dispatcher's error boundary covers only
stream construction and the handler call, not TLS setup. -/
theorem C2_unexpected_error_amended (s : Server) (env : ConnEnv)
    (hssl : s.ssl_options.isSome = true)
    (hunexp : (∃ code, env.wrap = WrapAttempt.sslError code ∧
                 code ≠ SSL_ERROR_EOF) ∨
              (∃ e, env.wrap = WrapAttempt.socketError e ∧
                 e ≠ ECONNABORTED ∧ e ≠ EINVAL)) :
    (handle_connection s env).outcome = ConnOutcome.raised ∧
    (handle_connection s env).handler_invoked = false := by
  obtain ⟨opts, hopts⟩ := Option.isSome_iff_exists.mp hssl
  rcases hunexp with ⟨code, hw, hne⟩ | ⟨e, hw, hne1, hne2⟩
  · simp [handle_connection, hopts, hw, hne]
  · simp [handle_connection, hopts, hw, hne1, hne2]

/-- Witness for the amended C2 at a concrete TLS server and a concrete
non-benign setup failure. -/
theorem C2_witness :
    sslServer.ssl_options.isSome = true ∧
    unexpectedEnv.wrap = WrapAttempt.sslError 1 ∧ (1 : Nat) ≠ SSL_ERROR_EOF ∧
    (handle_connection sslServer unexpectedEnv).outcome =
      ConnOutcome.raised ∧
    (handle_connection sslServer unexpectedEnv).handler_invoked = false :=
  ⟨rfl, rfl, by decide,
   C2_unexpected_error_amended sslServer unexpectedEnv rfl
     (Or.inl ⟨1, rfl, by decide⟩)⟩

/-- C6: with a dict-valued TLS configuration, `__init__` raises when the
`certfile` key is absent, when the certfile path does not exist, or when
a keyfile path is given that does not exist.  The constructor performs
no socket operation at all (it emits no `Event` and returns an empty
registry on success), so the failure precedes any socket creation. -/
theorem C6_ssl_validation (fs : List String) (opts : SSLDict)
    (mbs rcs : Option Nat)
    (hbad : opts.certfile = none ∨
      (∃ cf, opts.certfile = some cf ∧ path_exists fs cf = false) ∨
      (∃ cf kf, opts.certfile = some cf ∧ opts.keyfile = some kf ∧
        path_exists fs kf = false)) :
    ∃ err, TCPServer_init fs (some opts) mbs rcs = Except.error err := by
  rcases hbad with h | ⟨cf, hcf, hex⟩ | ⟨cf, kf, hcf, hkf, hex⟩
  · exact ⟨InitError.keyErrorMissingCertfile, by simp [TCPServer_init, h]⟩
  · exact ⟨InitError.valueErrorCertfile cf, by simp [TCPServer_init, hcf, hex]⟩
  · by_cases hc : path_exists fs cf = true
    · exact ⟨InitError.valueErrorKeyfile kf,
        by simp [TCPServer_init, hcf, hkf, hc, hex]⟩
    · exact ⟨InitError.valueErrorCertfile cf,
        by simp [TCPServer_init, hcf, hc]⟩

/-- Witness for C6: a non-empty TLS config (it has a keyfile) missing the
certfile option entirely, on an empty filesystem. -/
theorem C6_witness :
    (SSLDict.mk none (some "key.pem")).certfile = none ∧
    ∃ err, TCPServer_init [] (some (SSLDict.mk none (some "key.pem")))
      none none = Except.error err :=
  ⟨rfl, C6_ssl_validation [] (SSLDict.mk none (some "key.pem")) none none
    (Or.inl rfl)⟩

/-- C1 counterexample: the claim says `stop()` clears the registry so a
second `stop()` finds nothing tracked and is a no-op.  On a server
tracking one socket, the registry after `stop()` still holds that
socket, and a second `stop()` emits the same deregister-and-close
events again. -/
theorem C1_no_clear_cex :
    (stop fd5Server).1._sockets = [(5, sock5a)] ∧
    (stop fd5Server).1._sockets ≠ [] ∧
    (stop ((stop fd5Server).1)).2 =
      [Event.removeHandler 5, Event.closeSocket sock5a] := by
  refine ⟨rfl, ?_, rfl⟩
  intro h
  cases h

/-- C1 amended: each call to `stop()` deregisters every descriptor
currently in the registry from the reactor and closes its socket, but
leaves the server state — in particular the registry — unchanged, so a
second `stop()` repeats exactly the same deregistrations and closes
instead of finding an empty registry. -/
theorem C1_stop_closes_all_amended (s : Server) :
    (stop s).1 = s ∧
    (∀ p ∈ s._sockets,
      Event.removeHandler p.1 ∈ (stop s).2 ∧
      Event.closeSocket p.2 ∈ (stop s).2) ∧
    (stop ((stop s).1)).2 = (stop s).2 := by
  refine ⟨rfl, ?_, rfl⟩
  intro p hp
  exact stop_events_cover s._sockets p hp

/-- Witness for the amended C1 on a server tracking one socket. -/
theorem C1_witness :
    (stop fd5Server).1 = fd5Server ∧
    Event.removeHandler 5 ∈ (stop fd5Server).2 ∧
    Event.closeSocket sock5a ∈ (stop fd5Server).2 ∧
    (stop ((stop fd5Server).1)).2 = (stop fd5Server).2 := by
  obtain ⟨h1, h2, h3⟩ := C1_stop_closes_all_amended fd5Server
  have h4 := h2 (5, sock5a) (by decide)
  exact ⟨h1, h4.1, h4.2, h3⟩

/-- C7: a first successful `start()` empties the pending queue; every
previously pending socket is now tracked in the registry under its
descriptor, and exactly one accept-handler registration event is emitted
for it (assuming the pending sockets carry pairwise distinct
descriptors, which holds for simultaneously open sockets). -/
theorem C7_start_drains_pending (s : Server) (n : Int)
    (hstart : s._started = false)
    (hnd : (s._pending_sockets.map Socket.fileno).Nodup) :
    ∃ s' evs, start s n = some (s', evs) ∧
      s'._pending_sockets = [] ∧ s'._started = true ∧
      (∀ sock ∈ s._pending_sockets,
        dict_get s'._sockets sock.fileno = some sock ∧
        evs.count (Event.addAcceptHandler sock.fileno) = 1) := by
  refine ⟨(add_sockets { s with _started := true, _pending_sockets := [] }
            s._pending_sockets).1,
          (add_sockets { s with _started := true, _pending_sockets := [] }
            s._pending_sockets).2, ?_, ?_, ?_, ?_⟩
  · simp [start, hstart]
  · rw [add_sockets_fst]
  · rw [add_sockets_fst]
  · intro sock hsock
    constructor
    · rw [add_sockets_fst]
      exact add_all_get_mem s._pending_sockets _ sock hsock hnd
    · rw [add_sockets_snd]
      exact count_addAccept s._pending_sockets sock hsock hnd

/-- Witness for C7 on a server with two pending sockets of distinct
descriptors. -/
theorem C7_witness :
    pendingServer._started = false ∧
    (pendingServer._pending_sockets.map Socket.fileno).Nodup ∧
    ∃ s' evs, start pendingServer 1 = some (s', evs) ∧
      s'._pending_sockets = [] ∧ s'._started = true ∧
      (∀ sock ∈ pendingServer._pending_sockets,
        dict_get s'._sockets sock.fileno = some sock ∧
        evs.count (Event.addAcceptHandler sock.fileno) = 1) :=
  ⟨rfl, by decide, C7_start_drains_pending pendingServer 1 rfl (by decide)⟩

/-- C8 counterexample: the claim says registering a socket whose
descriptor is already tracked overwrites the entry but does not register
the accept callback again.  On a server already tracking descriptor 5,
`add_sockets` with a second socket of descriptor 5 overwrites the entry
and emits another accept-handler registration for descriptor 5. -/
theorem C8_double_registration_cex :
    dict_get (add_sockets fd5Server [sock5b]).1._sockets 5 = some sock5b ∧
    (add_sockets fd5Server [sock5b]).2 = [Event.addAcceptHandler 5] ∧
    (add_sockets fd5Server [sock5b]).2 ≠ [] := by
  refine ⟨rfl, rfl, ?_⟩
  intro h
  cases h

/-- C8 amended: registering via `add_sockets` a socket whose descriptor
is already in the registry overwrites the tracked entry and registers
the accept callback with the reactor again for that descriptor — the
loop at lines 156-163 calls `add_accept_handler` unconditionally, with
no guard against double registration. -/
theorem C8_overwrite_reregisters_amended (s : Server) (sock : Socket)
    (halready : dict_get s._sockets sock.fileno ≠ none) :
    dict_get (add_sockets s [sock]).1._sockets sock.fileno = some sock ∧
    (add_sockets s [sock]).2 = [Event.addAcceptHandler sock.fileno] := by
  constructor
  · rw [add_sockets_fst]
    exact dict_get_set_self s._sockets sock.fileno sock
  · rw [add_sockets_snd]
    rfl

/-- Witness for the amended C8: descriptor 5 is already tracked, the new
socket replaces the entry, and one more registration event is emitted. -/
theorem C8_witness :
    dict_get fd5Server._sockets sock5b.fileno ≠ none ∧
    dict_get (add_sockets fd5Server [sock5b]).1._sockets sock5b.fileno =
      some sock5b ∧
    (add_sockets fd5Server [sock5b]).2 =
      [Event.addAcceptHandler sock5b.fileno] := by
  refine ⟨by decide, ?_, ?_⟩
  · exact (C8_overwrite_reregisters_amended fd5Server sock5b (by decide)).1
  · exact (C8_overwrite_reregisters_amended fd5Server sock5b (by decide)).2

/-- C9: `bind` before the server has started appends the newly bound
sockets to the pending queue and emits no reactor event; `bind` after
the server has started updates the registry with the new sockets, leaves
the pending queue alone, and emits one accept-handler registration per
socket immediately. -/
theorem C9_bind_behavior (s : Server) (new_sockets : List Socket) :
    (s._started = false →
      bind s new_sockets =
        ({ s with _pending_sockets := s._pending_sockets ++ new_sockets },
         ([] : List Event))) ∧
    (s._started = true →
      (bind s new_sockets).1._sockets = add_all s._sockets new_sockets ∧
      (bind s new_sockets).1._pending_sockets = s._pending_sockets ∧
      (bind s new_sockets).2 =
        new_sockets.map (fun sock => Event.addAcceptHandler sock.fileno)) := by
  constructor
  · intro h
    simp [bind, h]
  · intro h
    simp [bind, h, add_sockets_fst, add_sockets_snd]

/-- Witness for C9: a not-yet-started server queues the socket with no
event; a started server registers it immediately. -/
theorem C9_witness :
    pendingServer._started = false ∧
    bind pendingServer [sock5a] =
      ({ pendingServer with
          _pending_sockets := pendingServer._pending_sockets ++ [sock5a] },
       ([] : List Event)) ∧
    startedServer._started = true ∧
    (bind startedServer [sock5a]).1._sockets =
      add_all startedServer._sockets [sock5a] ∧
    (bind startedServer [sock5a]).1._pending_sockets =
      startedServer._pending_sockets ∧
    (bind startedServer [sock5a]).2 =
      [sock5a].map (fun sock => Event.addAcceptHandler sock.fileno) := by
  refine ⟨rfl, (C9_bind_behavior pendingServer [sock5a]).1 rfl, rfl, ?_, ?_, ?_⟩
  · exact ((C9_bind_behavior startedServer [sock5a]).2 rfl).1
  · exact ((C9_bind_behavior startedServer [sock5a]).2 rfl).2.1
  · exact ((C9_bind_behavior startedServer [sock5a]).2 rfl).2.2

/-- C10: `stop()` leaves the whole server state unchanged — in
particular the pending queue and the started flag — and every event it
emits concerns a registry entry: a pending socket that is not tracked in
the registry is never closed by `stop()`. -/
theorem C10_stop_frame (s : Server) :
    (stop s).1 = s ∧
    (∀ e ∈ (stop s).2, ∃ p, p ∈ s._sockets ∧
       (e = Event.removeHandler p.1 ∨ e = Event.closeSocket p.2)) ∧
    (∀ sock ∈ s._pending_sockets, (∀ p ∈ s._sockets, p.2 ≠ sock) →
       Event.closeSocket sock ∉ (stop s).2) := by
  refine ⟨rfl, ?_, ?_⟩
  · intro e he
    exact mem_stop_events s._sockets e he
  · intro sock _ hnot hmem
    obtain ⟨p, hp, he⟩ := mem_stop_events s._sockets _ hmem
    rcases he with he | he
    · exact Event.noConfusion he
    · refine hnot p hp ?_
      injection he with h
      exact h.symm

/-- Witness for C10 on a started server with one tracked and one pending
socket: state unchanged, pending socket not closed. -/
theorem C10_witness :
    (stop trackedServer).1 = trackedServer ∧
    Event.closeSocket sock7 ∉ (stop trackedServer).2 ∧
    (stop trackedServer).1._pending_sockets = [sock7] ∧
    (stop trackedServer).1._started = true := by
  obtain ⟨h1, _, h3⟩ := C10_stop_frame trackedServer
  refine ⟨h1, h3 sock7 (by decide) (by decide), ?_, ?_⟩
  · rw [h1]
    rfl
  · rw [h1]
    rfl

end TCPServerModel
